import Mathlib

/-!
A shallow embedding of `src/app.py`, the single-script Streamlit app
"AI Piano Arranger".

The script is a linear pipeline: acquire audio (file upload or YouTube
download), transcribe it to MIDI plus a note-events JSON file via the
basic-pitch backend, convert the MIDI to MusicXML via music21, and offer
each artifact for download.  External collaborators (the upload widget,
pydub, yt-dlp, basic-pitch, music21) are modelled by explicit
environment records whose fields describe the observable effect of each
external call; the script's own control flow — branch selection, the
signature-based dispatch over the basic-pitch entry points, the
exception handlers, the file naming scheme and the download guards — is
translated directly from the source.

File names are modelled as `List Char` (the character content of the
Python strings), and on-disk artifact files by a three-valued
`FileState` (absent / half-written / fully written): opening a file for
writing creates it even when the subsequent write raises, which is
exactly the distinction the download guards of lines 173-207 can and
cannot observe.
-/

/-! ## Audio metadata and the acquisition stages (app.py lines 48-98) -/

/-- Observable properties of an audio file: container format, sample
rate, channel count and duration in milliseconds. -/
structure AudioMeta where
  fmt : String
  sampleRate : Nat
  channels : Nat
  durationMs : Nat
  deriving DecidableEq, Repr

/-- Python `str.lower` on one character (ASCII range, which covers the
extension strings compared here). -/
def lowerChar (c : Char) : Char :=
  if 'A' ≤ c ∧ c ≤ 'Z' then Char.ofNat (c.toNat + 32) else c

/-- `suf` is a suffix of `l` (Python `str.endswith`). -/
def endsWithL (l suf : List Char) : Bool :=
  decide (suf <:+ l)

/-- The upload widget's extension allow-list, line 53:
`type=["wav", "mp3", "m4a", "flac", "ogg"]`. -/
def allowedUploadTypes : List (List Char) :=
  ["wav".toList, "mp3".toList, "m4a".toList, "flac".toList, "ogg".toList]

/-- Whether `st.file_uploader` delivers a file with this name: the
widget filters by extension, case-insensitively, against the `type`
allow-list of line 53. -/
def uploaderAccepts (name : List Char) : Bool :=
  allowedUploadTypes.any fun t => endsWithL (name.map lowerChar) ('.' :: t)

/-- Result of an acquisition branch: the audio asset bound to
`audio_path` (if any) plus the error messages shown via `st.error`. -/
structure AcqResult where
  asset : Option AudioMeta
  errors : List String
  deriving DecidableEq, Repr

/-- Upload branch, lines 52-60: a file delivered by the widget is
written verbatim (`f.write(uploaded.getbuffer())`), so the stored
asset keeps the source's format, sample rate, channels and duration
unchanged; a name failing the widget filter yields no upload event and
hence no asset and no message. -/
def uploadStage (name : List Char) (meta : AudioMeta) (somethingChosen : Bool) :
    AcqResult :=
  if somethingChosen && uploaderAccepts name then
    { asset := some meta, errors := [] }
  else
    { asset := none, errors := [] }

/-- Environment of the YouTube branch, lines 62-98: outcome flags of
each external call and the properties of the downloaded/transcoded
mp3. -/
structure UrlEnv where
  urlNonempty : Bool
  buttonClicked : Bool
  extractOk : Bool
  rawExists : Bool
  decodeOk : Bool
  exportOk : Bool
  rawMeta : AudioMeta
  deriving DecidableEq, Repr

/-- pydub millisecond slice `audio[:bound]`, line 88: the result's
duration is the smaller of the source duration and the bound. -/
def pydubSliceMs (durationMs bound : Nat) : Nat := min durationMs bound

/-- YouTube branch, lines 62-98.  On success the asset is the trimmed
export: WAV container (line 90, `format="wav"`), sample rate and
channels of the decoded segment preserved (pydub export keeps them),
duration cut by `audio[:30 * 1000]` (line 88).  Every failure inside
the `try` lands in the single handler of line 96, which shows one
`st.error` and leaves `audio_path = None`. -/
def urlStage (env : UrlEnv) : AcqResult :=
  if env.buttonClicked && env.urlNonempty then
    if env.extractOk && env.rawExists && env.decodeOk && env.exportOk then
      { asset := some
          { fmt := "wav"
            sampleRate := env.rawMeta.sampleRate
            channels := env.rawMeta.channels
            durationMs := pydubSliceMs env.rawMeta.durationMs (30 * 1000) }
        errors := [] }
    else
      { asset := none, errors := ["Error downloading audio"] }
  else
    { asset := none, errors := [] }

/-! ## Note events and JSON serialization (app.py lines 150-151) -/

/-- A Python value appearing as a note-event field: a plain JSON-ready
scalar, or a boxed numeric scalar from a numeric library (e.g. a numpy
float32), which `json.dump` cannot encode. -/
inductive PyVal where
  | num (q : Rat)
  | str (s : String)
  | boolean (b : Bool)
  | null
  | boxedNum (q : Rat)
  deriving DecidableEq, Repr

/-- One note event as returned by the in-memory `predict` call. -/
structure PyNoteEvent where
  pitch : PyVal
  onset : PyVal
  offTime : PyVal
  confidence : PyVal
  deriving DecidableEq, Repr

/-- A JSON scalar, the interchange representation produced by
`json.dump`. -/
inductive JsonVal where
  | jnum (q : Rat)
  | jstr (s : String)
  | jbool (b : Bool)
  | jnull
  deriving DecidableEq, Repr

/-- One serialized note event. -/
structure JsonNoteEvent where
  pitch : JsonVal
  onset : JsonVal
  offTime : JsonVal
  confidence : JsonVal
  deriving DecidableEq, Repr

/-- `json.dump` on one field: plain scalars are encoded as themselves;
a boxed numeric scalar raises `TypeError` (modelled as `none`).  The
source, line 151, calls `json.dump(note_events, f, indent=2)` with no
coercion step of its own. -/
def dumpVal : PyVal → Option JsonVal
  | .num q => some (.jnum q)
  | .str s => some (.jstr s)
  | .boolean b => some (.jbool b)
  | .null => some .jnull
  | .boxedNum _ => none

/-- `json.dump` on one note event. -/
def dumpEvent (e : PyNoteEvent) : Option JsonNoteEvent :=
  match dumpVal e.pitch, dumpVal e.onset, dumpVal e.offTime, dumpVal e.confidence with
  | some p, some a, some b, some c => some ⟨p, a, b, c⟩
  | _, _, _, _ => none

/-- `json.dump` on the note-event sequence (line 151): succeeds only
when every field of every event is a plain scalar. -/
def dumpNoteEvents : List PyNoteEvent → Option (List JsonNoteEvent)
  | [] => some []
  | e :: rest =>
    match dumpEvent e, dumpNoteEvents rest with
    | some j, some js => some (j :: js)
    | _, _ => none

/-- Decoding one JSON scalar back to a Python value (`json.load`). -/
def loadVal : JsonVal → PyVal
  | .jnum q => .num q
  | .jstr s => .str s
  | .jbool b => .boolean b
  | .jnull => .null

/-- Decoding one serialized note event back (`json.load`). -/
def loadEvent (j : JsonNoteEvent) : PyNoteEvent :=
  ⟨loadVal j.pitch, loadVal j.onset, loadVal j.offTime, loadVal j.confidence⟩

/-- A field is a plain number, string, boolean or null. -/
def plainVal : PyVal → Bool
  | .boxedNum _ => false
  | _ => true

/-- All four fields of an event are plain scalars. -/
def plainEvent (e : PyNoteEvent) : Bool :=
  plainVal e.pitch && plainVal e.onset && plainVal e.offTime && plainVal e.confidence

/-! ## Transcription dispatch (app.py lines 108-161) -/

/-- State of one artifact file on disk.  `halfWritten` covers a file
that exists but was not completely written — e.g. created by
`open(..., "w")` just before the write raised.  `Path.exists()` is true
for both `halfWritten` and `fullyWritten`. -/
inductive FileState where
  | absent
  | halfWritten
  | fullyWritten
  deriving DecidableEq, Repr

/-- `Path.exists()` on a modelled file. -/
def fileExists : FileState → Bool
  | .absent => false
  | _ => true

/-- Shape of the value returned by the in-memory `predict` call, for
the unpacking code of lines 139-143: a tuple of length at least three,
an iterable of exactly three, or anything else (whose unpacking at
line 143 raises). -/
inductive PredictShape where
  | tupleAtLeast3
  | exactly3
  | notUnpackable
  deriving DecidableEq, Repr

/-- Which dispatch branch of lines 109-154 ran. -/
inductive Dispatch where
  | pasOld
  | pasNew
  | pasFallback
  | inMemory
  | noneAvailable
  | importFail
  deriving DecidableEq, Repr

/-- Line 123: `"save_midi" in params and "save_notes" in params and
"model_or_model_path" in params`. -/
def oldConvention (params : List String) : Bool :=
  params.contains "save_midi" && params.contains "save_notes" &&
    params.contains "model_or_model_path"

/-- Line 127: `"save_model_outputs" in params and "save_notes" in
params and "model_or_model_path" in params`. -/
def newConvention (params : List String) : Bool :=
  params.contains "save_model_outputs" && params.contains "save_notes" &&
    params.contains "model_or_model_path"

/-- The three-way branch of lines 123-134 over the parameter names of
`PREDICT_AND_SAVE_FN`.  All three branches issue the identical call
`PREDICT_AND_SAVE_FN(str(audio_path), str(midi_out),
str(note_events_json), None)`; only the success message differs. -/
def pasDispatch (params : List String) : Dispatch :=
  if oldConvention params then .pasOld
  else if newConvention params then .pasNew
  else .pasFallback

/-- Environment of the transcription stage: which basic-pitch entry
points resolved at import time (lines 12-36), the parameter names of
`predict_and_save`, and the observable effect of invoking each entry
point. -/
structure BackendEnv where
  pasAvailable : Bool
  pAvailable : Bool
  importErrorSet : Bool
  pasParams : List String
  pasRaises : Bool
  pasMidiEffect : FileState
  pasNotesEffect : FileState
  pRaises : Bool
  pShape : PredictShape
  midiWriteRaises : Bool
  midiWriteEffect : FileState
  noteEvents : List PyNoteEvent
  deriving DecidableEq, Repr

/-- Outcome of the `try`/`except` of lines 116-161. -/
structure TransOut where
  dispatch : Dispatch
  callAttempted : Bool
  midiOutVar : Bool
  midi : FileState
  notes : FileState
  transcriptionError : Bool
  deriving DecidableEq, Repr

/-- The transcription `try`/`except` block, lines 116-161 (reached only
when the import-failure branch of line 109 was not taken).

* `predict_and_save` available (line 118): one of the three signature
  branches is chosen, but each performs the same call; the call's
  effect on the two output files is whatever the backend did
  (`pasMidiEffect` / `pasNotesEffect`, cf. the comment on line 135).
* only `predict` available (line 136): call it, unpack, write the MIDI
  file, then `open(note_events_json, "w")` — which creates the file —
  and `json.dump` the events, which raises on a non-plain field.
* neither: `raise RuntimeError` (line 154).

The handler of lines 155-161 turns any exception into an error message
and sets `midi_out = None` — and touches nothing else. -/
def runTranscription (env : BackendEnv) : TransOut :=
  if env.pasAvailable then
    if env.pasRaises then
      { dispatch := pasDispatch env.pasParams, callAttempted := true,
        midiOutVar := false, midi := env.pasMidiEffect,
        notes := env.pasNotesEffect, transcriptionError := true }
    else
      { dispatch := pasDispatch env.pasParams, callAttempted := true,
        midiOutVar := true, midi := env.pasMidiEffect,
        notes := env.pasNotesEffect, transcriptionError := false }
  else if env.pAvailable then
    if env.pRaises then
      { dispatch := .inMemory, callAttempted := true, midiOutVar := false,
        midi := .absent, notes := .absent, transcriptionError := true }
    else
      match env.pShape with
      | .notUnpackable =>
        { dispatch := .inMemory, callAttempted := true, midiOutVar := false,
          midi := .absent, notes := .absent, transcriptionError := true }
      | _ =>
        if env.midiWriteRaises then
          { dispatch := .inMemory, callAttempted := true, midiOutVar := false,
            midi := env.midiWriteEffect, notes := .absent,
            transcriptionError := true }
        else if (dumpNoteEvents env.noteEvents).isSome then
          { dispatch := .inMemory, callAttempted := true, midiOutVar := true,
            midi := .fullyWritten, notes := .fullyWritten,
            transcriptionError := false }
        else
          { dispatch := .inMemory, callAttempted := true, midiOutVar := false,
            midi := .fullyWritten, notes := .halfWritten,
            transcriptionError := true }
  else
    { dispatch := .noneAvailable, callAttempted := false, midiOutVar := false,
      midi := .absent, notes := .absent, transcriptionError := true }

/-! ## MusicXML conversion and the downloads section (lines 163-207) -/

/-- Effect of `converter.parse` + `score.write` (lines 166-167): either
the conversion raises — possibly leaving a half-written MusicXML file —
or it completes. -/
structure ConvertEnv where
  convertRaises : Bool
  convertEffect : FileState
  deriving DecidableEq, Repr

/-- State after the whole post-acquisition block (lines 100-171). -/
structure PipelineOut where
  trans : TransOut
  musicxmlVar : Bool
  musicxml : FileState
  convertError : Bool
  importErrorShown : Bool
  deriving DecidableEq, Repr

/-- Lines 108-171: the import-failure branch (line 109) shows its own
error and skips both transcription and conversion; otherwise the
`try`/`except` runs and then, when `midi_out` is still set and the MIDI
file exists (line 164), the MusicXML conversion runs, its handler
setting `musicxml_path = None` on failure (line 171). -/
def runPipeline (env : BackendEnv) (cenv : ConvertEnv) : PipelineOut :=
  if env.importErrorSet && !env.pasAvailable && !env.pAvailable then
    { trans :=
        { dispatch := .importFail, callAttempted := false, midiOutVar := true,
          midi := .absent, notes := .absent, transcriptionError := false }
      musicxmlVar := true, musicxml := .absent, convertError := false,
      importErrorShown := true }
  else
    let t := runTranscription env
    if t.midiOutVar && fileExists t.midi then
      if cenv.convertRaises then
        { trans := t, musicxmlVar := false, musicxml := cenv.convertEffect,
          convertError := true, importErrorShown := false }
      else
        { trans := t, musicxmlVar := true, musicxml := .fullyWritten,
          convertError := false, importErrorShown := false }
    else
      { trans := t, musicxmlVar := true, musicxml := .absent,
        convertError := false, importErrorShown := false }

/-- Which download buttons the downloads section (lines 173-207)
offers.  MIDI: `if midi_out and midi_out.exists()` (line 184);
MusicXML: `if musicxml_path and musicxml_path.exists()` (line 192);
note events: `if note_events_json.exists()` alone (line 200). -/
structure Offered where
  audioOffered : Bool
  midiOffered : Bool
  musicxmlOffered : Bool
  notesOffered : Bool
  deriving DecidableEq, Repr

/-- The download guards of lines 176-207. -/
def offeredDownloads (audioFileExists : Bool) (p : PipelineOut) : Offered :=
  { audioOffered := audioFileExists
    midiOffered := p.trans.midiOutVar && fileExists p.trans.midi
    musicxmlOffered := p.musicxmlVar && fileExists p.musicxml
    notesOffered := fileExists p.trans.notes }

/-! ## Artifact paths (app.py lines 39-40, 55-57, 70, 89, 103-106) -/

/-- `UPLOADS = Path("uploads")` (line 39): the directory prefix of
paths under it. -/
def uploadsDir : List Char := "uploads/".toList

/-- `OUTPUTS = Path("outputs")` (line 40). -/
def outputsDir : List Char := "outputs/".toList

/-- Line 57: `dest = UPLOADS / f"{uid}{ext}"`. -/
def uploadDest (uid ext : List Char) : List Char :=
  uploadsDir ++ uid ++ ext

/-- Line 70/81: the mp3 file the YouTube postprocessor leaves at
`uploads/{uid}.mp3`. -/
def rawMp3Path (uid : List Char) : List Char :=
  uploadsDir ++ uid ++ ".mp3".toList

/-- Line 89: `trimmed_path = UPLOADS / f"{uid}_trimmed.wav"`. -/
def trimmedPath (uid : List Char) : List Char :=
  uploadsDir ++ uid ++ "_trimmed.wav".toList

/-- Line 104: `midi_out = OUTPUTS / f"{uid}.midi"`. -/
def midiOutPath (uid : List Char) : List Char :=
  outputsDir ++ uid ++ ".midi".toList

/-- Line 105: `musicxml_path = OUTPUTS / f"{uid}.musicxml"`. -/
def musicxmlOutPath (uid : List Char) : List Char :=
  outputsDir ++ uid ++ ".musicxml".toList

/-- Line 106: `note_events_json = OUTPUTS / f"{uid}_note_events.json"`. -/
def noteEventsPath (uid : List Char) : List Char :=
  outputsDir ++ uid ++ "_note_events.json".toList

/-- The final path component (`pathlib` takes the part after the last
slash). -/
def lastComponent (p : List Char) : List Char :=
  (p.reverse.takeWhile (fun c => c ≠ '/')).reverse

/-- `pathlib.Path(p).stem`: the last component minus its suffix, where
the suffix runs from the last dot — unless that dot is absent or is the
component's first character, in which case there is no suffix.
`fromLastDot` is the reversed component from its last dot on; it has
length 0 when there is no dot and length 1 when the only dot leads. -/
def fromLastDot (b : List Char) : List Char :=
  b.reverse.dropWhile (fun c => c ≠ '.')

def pyStem (p : List Char) : List Char :=
  if (fromLastDot (lastComponent p)).length ≤ 1 then lastComponent p
  else (fromLastDot (lastComponent p)).tail.reverse

/-- Line 103: `uid = audio_path.stem.split("_")[0]` — the stem up to
the first underscore. -/
def uidFromAudioPath (p : List Char) : List Char :=
  (pyStem p).takeWhile (fun c => c ≠ '_')

/-- A character that structures the artifact file names: the suffix
dot or the underscore of `_trimmed` / `_note_events`. -/
def isSpecial (c : Char) : Bool := c == '.' || c == '_'

/-- A uuid4 string as produced by `str(uuid.uuid4())` (line 56/65):
nonempty, made of hex digits and hyphens — in particular free of dots,
underscores and slashes. -/
def uuidSafe (uid : List Char) : Bool :=
  !uid.isEmpty && uid.all fun c => c ≠ '.' && c ≠ '_' && c ≠ '/'

/-- The lowercased extensions the upload widget can deliver
(`Path(uploaded.name).suffix.lower()`, line 55). -/
def allowedExtLists : List (List Char) :=
  [".wav".toList, ".mp3".toList, ".m4a".toList, ".flac".toList, ".ogg".toList]

/-- All artifact paths a session with this uid may read or write
(upload destination or YouTube raw/trimmed files, plus the three
outputs of lines 104-106). -/
def sessionPaths (uid ext : List Char) : List (List Char) :=
  [uploadDest uid ext, rawMp3Path uid, trimmedPath uid,
   midiOutPath uid, musicxmlOutPath uid, noteEventsPath uid]

/-! ## Helper lemmas about characters and artifact paths -/

theorem takeWhile_append_of_forall {p : Char → Bool} (l m : List Char)
    (h : ∀ c ∈ l, p c = true) : (l ++ m).takeWhile p = l ++ m.takeWhile p := by
  induction l with
  | nil => simp
  | cons x xs ih =>
    simp only [List.cons_append, List.takeWhile_cons, h x (by simp), if_true]
    rw [ih (fun c hc => h c (by simp [hc]))]

theorem dropWhile_append_of_forall {p : Char → Bool} (l m : List Char)
    (h : ∀ c ∈ l, p c = true) : (l ++ m).dropWhile p = m.dropWhile p := by
  induction l with
  | nil => simp
  | cons x xs ih =>
    simp only [List.cons_append, List.dropWhile_cons, h x (by simp), if_true]
    exact ih (fun c hc => h c (by simp [hc]))

theorem takeWhile_eq_self_of_forall {p : Char → Bool} (l : List Char)
    (h : ∀ c ∈ l, p c = true) : l.takeWhile p = l := by
  induction l with
  | nil => simp
  | cons x xs ih =>
    simp only [List.takeWhile_cons, h x (by simp), if_true]
    rw [ih (fun c hc => h c (by simp [hc]))]

theorem append_special_inj : ∀ a b s t : List Char,
    (∀ c ∈ a, isSpecial c = false) → (∀ c ∈ b, isSpecial c = false) →
    (∀ c, s.head? = some c → isSpecial c = true) →
    (∀ c, t.head? = some c → isSpecial c = true) →
    a ++ s = b ++ t → a = b ∧ s = t := by
  intro a
  induction a with
  | nil =>
    intro b s t _ hb hs ht h
    cases b with
    | nil => simpa using h
    | cons x b2 =>
      exfalso
      simp only [List.nil_append, List.cons_append] at h
      have h1 := hs x (by rw [h]; rfl)
      have h2 := hb x (by simp)
      rw [h1] at h2
      exact Bool.noConfusion h2
  | cons x a2 ih =>
    intro b s t ha hb hs ht h
    cases b with
    | nil =>
      exfalso
      simp only [List.cons_append, List.nil_append] at h
      have h1 := ht x (by rw [← h]; rfl)
      have h2 := ha x (by simp)
      rw [h1] at h2
      exact Bool.noConfusion h2
    | cons y b2 =>
      simp only [List.cons_append, List.cons.injEq] at h
      obtain ⟨hxy, h2⟩ := h
      obtain ⟨hab, hst⟩ :=
        ih b2 s t (fun c hc => ha c (by simp [hc]))
          (fun c hc => hb c (by simp [hc])) hs ht h2
      exact ⟨by rw [hxy, hab], hst⟩

theorem sameDirPathNe (d uidA uidB s t : List Char)
    (hA : ∀ c ∈ uidA, isSpecial c = false) (hB : ∀ c ∈ uidB, isSpecial c = false)
    (hs : ∀ c, s.head? = some c → isSpecial c = true)
    (ht : ∀ c, t.head? = some c → isSpecial c = true)
    (hne : uidA ≠ uidB) : d ++ uidA ++ s ≠ d ++ uidB ++ t := by
  intro h
  rw [List.append_assoc, List.append_assoc] at h
  exact hne
    (append_special_inj uidA uidB s t hA hB hs ht (List.append_cancel_left h)).1

theorem uploadsPathNeOutputs (a s b t : List Char) :
    uploadsDir ++ a ++ s ≠ outputsDir ++ b ++ t := by
  intro h
  rw [List.append_assoc, List.append_assoc,
      show uploadsDir = 'u' :: "ploads/".toList from rfl,
      show outputsDir = 'o' :: "utputs/".toList from rfl] at h
  simp only [List.cons_append] at h
  injection h with h1 _
  exact absurd h1 (by decide)

theorem uuidSafe_not_special {uid : List Char} (h : uuidSafe uid = true) :
    ∀ c ∈ uid, isSpecial c = false := by
  intro c hc
  simp only [uuidSafe, Bool.and_eq_true, List.all_eq_true] at h
  obtain ⟨-, h2⟩ := h
  have h3 := h2 c hc
  simp only [Bool.and_eq_true, decide_eq_true_eq] at h3
  simp [isSpecial, h3.1.1, h3.1.2]

theorem uuidSafe_ne_nil {uid : List Char} (h : uuidSafe uid = true) : uid ≠ [] := by
  simp only [uuidSafe, Bool.and_eq_true, Bool.not_eq_true', List.isEmpty_eq_false] at h
  exact h.1

theorem uuidSafe_no_slash {uid : List Char} (h : uuidSafe uid = true) :
    ∀ c ∈ uid, (c ≠ '/' : Bool) = true := by
  intro c hc
  simp only [uuidSafe, Bool.and_eq_true, List.all_eq_true] at h
  exact (h.2 c hc).2

theorem ext_head_special {ext : List Char} (h : ext ∈ allowedExtLists) :
    ∀ c, ext.head? = some c → isSpecial c = true := by
  simp only [allowedExtLists, List.mem_cons, List.not_mem_nil, or_false] at h
  intro c hc
  rcases h with rfl | rfl | rfl | rfl | rfl <;>
    (injection hc with hc2; subst hc2; rfl)

theorem lastComponent_under_dir (d x : List Char)
    (hd : d.reverse.takeWhile (fun c => c ≠ '/') = [])
    (hx : ∀ c ∈ x, (c ≠ '/' : Bool) = true) :
    lastComponent (d ++ x) = x := by
  unfold lastComponent
  rw [List.reverse_append,
    takeWhile_append_of_forall _ _ (fun c hc => hx c (List.mem_reverse.mp hc)),
    hd, List.append_nil, List.reverse_reverse]

theorem pyStem_dir_append (d stem tail : List Char)
    (hd : d.reverse.takeWhile (fun c => c ≠ '/') = [])
    (hstem : stem ≠ [])
    (hsx : ∀ c ∈ stem, (c ≠ '/' : Bool) = true)
    (htail : ∀ c ∈ tail, (c ≠ '.' : Bool) = true ∧ (c ≠ '/' : Bool) = true) :
    pyStem (d ++ (stem ++ '.' :: tail)) = stem := by
  have hlc : lastComponent (d ++ (stem ++ '.' :: tail)) = stem ++ '.' :: tail :=
    lastComponent_under_dir d _ hd (by
      intro c hc
      rcases List.mem_append.mp hc with h | h
      · exact hsx c h
      · rcases List.mem_cons.mp h with rfl | h
        · decide
        · exact (htail c h).2)
  have hfd : fromLastDot (stem ++ '.' :: tail) = '.' :: stem.reverse := by
    unfold fromLastDot
    rw [List.reverse_append, List.reverse_cons, List.append_assoc,
      List.singleton_append,
      dropWhile_append_of_forall _ _
        (fun c hc => (htail c (List.mem_reverse.mp hc)).1),
      List.dropWhile_cons]
    simp
  unfold pyStem
  rw [hlc, hfd]
  rw [if_neg (by
    simp only [List.length_cons]
    intro hle
    have h0 : stem.reverse.length = 0 := by omega
    exact hstem (List.reverse_eq_nil_iff.mp (List.length_eq_zero.mp h0)))]
  rw [List.tail_cons, List.reverse_reverse]

theorem uuidSafe_no_underscore {uid : List Char} (h : uuidSafe uid = true) :
    ∀ c ∈ uid, (c ≠ '_' : Bool) = true := by
  intro c hc
  simp only [uuidSafe, Bool.and_eq_true, List.all_eq_true] at h
  exact (h.2 c hc).1.2

theorem ext_decomp {ext : List Char} (he : ext ∈ allowedExtLists) :
    ∃ tail, ext = '.' :: tail ∧
      ∀ c ∈ tail, (c ≠ '.' : Bool) = true ∧ (c ≠ '/' : Bool) = true := by
  simp only [allowedExtLists, List.mem_cons, List.not_mem_nil, or_false] at he
  rcases he with rfl | rfl | rfl | rfl | rfl
  · exact ⟨"wav".toList, rfl, by decide⟩
  · exact ⟨"mp3".toList, rfl, by decide⟩
  · exact ⟨"m4a".toList, rfl, by decide⟩
  · exact ⟨"flac".toList, rfl, by decide⟩
  · exact ⟨"ogg".toList, rfl, by decide⟩

theorem uid_recovered_upload (uid ext : List Char) (h : uuidSafe uid = true)
    (he : ext ∈ allowedExtLists) :
    uidFromAudioPath (uploadDest uid ext) = uid := by
  obtain ⟨tail, rfl, htail⟩ := ext_decomp he
  unfold uidFromAudioPath uploadDest
  rw [List.append_assoc,
    pyStem_dir_append uploadsDir uid tail (by decide) (uuidSafe_ne_nil h)
      (uuidSafe_no_slash h) htail]
  exact takeWhile_eq_self_of_forall uid (uuidSafe_no_underscore h)

theorem uid_recovered_trimmed (uid : List Char) (h : uuidSafe uid = true) :
    uidFromAudioPath (trimmedPath uid) = uid := by
  unfold uidFromAudioPath trimmedPath
  rw [show ("_trimmed.wav".toList : List Char) =
      "_trimmed".toList ++ '.' :: "wav".toList from rfl,
    List.append_assoc, ← List.append_assoc uid,
    pyStem_dir_append uploadsDir (uid ++ "_trimmed".toList) ("wav".toList)
      (by decide)
      (by
        intro hh
        have := congrArg List.length hh
        simp at this)
      (by
        intro c hc
        rcases List.mem_append.mp hc with h2 | h2
        · exact uuidSafe_no_slash h c h2
        · have hall : ∀ x ∈ "_trimmed".toList, (x ≠ '/' : Bool) = true := by decide
          exact hall c h2)
      (by decide),
    takeWhile_append_of_forall uid _ (uuidSafe_no_underscore h),
    show ("_trimmed".toList.takeWhile (fun c => (c ≠ '_' : Bool))) = [] from rfl]
  exact List.append_nil uid

theorem head_special_cons (c0 : Char) (l : List Char) (h : isSpecial c0 = true) :
    ∀ c, (c0 :: l).head? = some c → isSpecial c = true := by
  intro c hc
  rw [List.head?_cons, Option.some.injEq] at hc
  rw [← hc]
  exact h

theorem mp3_tail_eq : (".mp3".toList : List Char) = '.' :: "mp3".toList := rfl

theorem trimmed_tail_eq :
    ("_trimmed.wav".toList : List Char) = '_' :: "trimmed.wav".toList := rfl

theorem midi_tail_eq : (".midi".toList : List Char) = '.' :: "midi".toList := rfl

theorem musicxml_tail_eq :
    (".musicxml".toList : List Char) = '.' :: "musicxml".toList := rfl

theorem notes_tail_eq :
    ("_note_events.json".toList : List Char) = '_' :: "note_events.json".toList := rfl

/-! ## Claim theorems -/

/-- C10: every artifact path of a session embeds that session's uuid,
the uuid used to name the output artifacts is recovered from the audio
path's stem (`audio_path.stem.split("_")[0]`, line 103), and two
sessions with distinct uuids have disjoint sets of artifact paths.  A
uuid4 string is nonempty and free of dots, underscores and slashes
(`uuidSafe`); the upload extension is one of the widget's five
lowercased extensions. -/
theorem session_artifact_isolation
    (uidA uidB extA extB : List Char)
    (hA : uuidSafe uidA = true) (hB : uuidSafe uidB = true)
    (heA : extA ∈ allowedExtLists) (heB : extB ∈ allowedExtLists)
    (hne : uidA ≠ uidB) :
    (uidFromAudioPath (uploadDest uidA extA) = uidA ∧
     uidFromAudioPath (trimmedPath uidA) = uidA) ∧
    ∀ p ∈ sessionPaths uidA extA, p ∉ sessionPaths uidB extB := by
  refine ⟨⟨uid_recovered_upload uidA extA hA heA, uid_recovered_trimmed uidA hA⟩, ?_⟩
  intro p hp hq
  have hAs := uuidSafe_not_special hA
  have hBs := uuidSafe_not_special hB
  obtain ⟨tailA, hdA, htailA⟩ := ext_decomp heA
  obtain ⟨tailB, hdB, htailB⟩ := ext_decomp heB
  have hsA : ∀ c, extA.head? = some c → isSpecial c = true := by
    rw [hdA]
    exact head_special_cons '.' tailA rfl
  have hsB : ∀ c, extB.head? = some c → isSpecial c = true := by
    rw [hdB]
    exact head_special_cons '.' tailB rfl
  simp only [sessionPaths, uploadDest, rawMp3Path, trimmedPath, midiOutPath,
    musicxmlOutPath, noteEventsPath, mp3_tail_eq, trimmed_tail_eq, midi_tail_eq,
    musicxml_tail_eq, notes_tail_eq, List.mem_cons, List.not_mem_nil,
    or_false] at hp hq
  rcases hp with rfl | rfl | rfl | rfl | rfl | rfl <;>
    rcases hq with h | h | h | h | h | h <;>
    first
      | exact uploadsPathNeOutputs _ _ _ _ h
      | exact uploadsPathNeOutputs _ _ _ _ h.symm
      | exact sameDirPathNe _ _ _ _ _ hAs hBs hsA hsB hne h
      | exact sameDirPathNe _ _ _ _ _ hAs hBs hsA (head_special_cons '.' _ rfl) hne h
      | exact sameDirPathNe _ _ _ _ _ hAs hBs hsA (head_special_cons '_' _ rfl) hne h
      | exact sameDirPathNe _ _ _ _ _ hAs hBs (head_special_cons '.' _ rfl) hsB hne h
      | exact sameDirPathNe _ _ _ _ _ hAs hBs (head_special_cons '_' _ rfl) hsB hne h
      | exact sameDirPathNe _ _ _ _ _ hAs hBs (head_special_cons '.' _ rfl)
          (head_special_cons '.' _ rfl) hne h
      | exact sameDirPathNe _ _ _ _ _ hAs hBs (head_special_cons '.' _ rfl)
          (head_special_cons '_' _ rfl) hne h
      | exact sameDirPathNe _ _ _ _ _ hAs hBs (head_special_cons '_' _ rfl)
          (head_special_cons '.' _ rfl) hne h
      | exact sameDirPathNe _ _ _ _ _ hAs hBs (head_special_cons '_' _ rfl)
          (head_special_cons '_' _ rfl) hne h

/-- Witness for C10: two concrete sessions with distinct uuid-shaped
identifiers; the uid is recovered from both audio path shapes and the
first session's MIDI output path is not among the second session's
paths. -/
theorem session_artifact_isolation_witness :
    (uidFromAudioPath (uploadDest "aaaa".toList ".wav".toList) = "aaaa".toList ∧
     uidFromAudioPath (trimmedPath "aaaa".toList) = "aaaa".toList) ∧
    midiOutPath "aaaa".toList ∉ sessionPaths "bbbb".toList ".mp3".toList :=
  ⟨(session_artifact_isolation "aaaa".toList "bbbb".toList ".wav".toList ".mp3".toList
      (by decide) (by decide) (by decide) (by decide) (by decide)).1,
   (session_artifact_isolation "aaaa".toList "bbbb".toList ".wav".toList ".mp3".toList
      (by decide) (by decide) (by decide) (by decide) (by decide)).2
     (midiOutPath "aaaa".toList) (by decide)⟩

theorem runTranscription_error_midiOutVar (env : BackendEnv) :
    (runTranscription env).transcriptionError = true →
    (runTranscription env).midiOutVar = false := by
  unfold runTranscription
  repeat' split
  all_goals intro h
  all_goals first | rfl | exact Bool.noConfusion h

theorem pipeline_trans_error_midiOutVar (env : BackendEnv) (cenv : ConvertEnv) :
    (runPipeline env cenv).trans.transcriptionError = true →
    (runPipeline env cenv).trans.midiOutVar = false := by
  have hr := runTranscription_error_midiOutVar env
  simp only [runPipeline]
  repeat' split
  all_goals first | exact hr | exact fun h => Bool.noConfusion h

theorem pasDispatch_ne_inMemory (params : List String) :
    pasDispatch params ≠ Dispatch.inMemory := by
  unfold pasDispatch
  repeat' split
  all_goals decide

/-- C1 counterexample: with only the in-memory `predict` entry point
available and a note-event sequence containing one boxed (non-plain)
field, the stage writes the MIDI file, creates the note-events file,
then fails inside `json.dump`; afterwards a `TranscriptionError` was
reported, the MIDI download is withheld, yet the note-events file is
half-written on disk and its download IS offered — so it is false that
after a failing transcription no note-events file is served. -/
theorem transcription_failure_serves_notes_cex :
    (let env : BackendEnv :=
      { pasAvailable := false, pAvailable := true, importErrorSet := false,
        pasParams := [], pasRaises := false, pasMidiEffect := .absent,
        pasNotesEffect := .absent, pRaises := false, pShape := .tupleAtLeast3,
        midiWriteRaises := false, midiWriteEffect := .absent,
        noteEvents := [{ pitch := .boxedNum 60, onset := .num 0,
                         offTime := .num 1, confidence := .num 1 }] }
     let p := runPipeline env { convertRaises := false, convertEffect := .absent }
     p.trans.transcriptionError = true ∧
     (offeredDownloads true p).midiOffered = false ∧
     (offeredDownloads true p).notesOffered = true ∧
     p.trans.notes = FileState.halfWritten ∧
     p.trans.midi = FileState.fullyWritten) :=
  ⟨rfl, rfl, rfl, rfl, rfl⟩

/-- C1 (amended): transcription is not all-or-nothing; what the code
guarantees is one-sided: whenever the transcription stage fails (the
handler of line 155 ran), the MIDI download is withheld, because the
handler clears `midi_out`; the note-events download, by contrast, is
governed solely by the file's existence on disk. -/
theorem transcription_failure_withholds_midi (env : BackendEnv) (cenv : ConvertEnv)
    (audioFileExists : Bool)
    (h : (runPipeline env cenv).trans.transcriptionError = true) :
    (offeredDownloads audioFileExists (runPipeline env cenv)).midiOffered = false ∧
    (offeredDownloads audioFileExists (runPipeline env cenv)).notesOffered =
      fileExists (runPipeline env cenv).trans.notes := by
  refine ⟨?_, rfl⟩
  unfold offeredDownloads
  simp only [pipeline_trans_error_midiOutVar env cenv h, Bool.false_and]

/-- Witness for C1 (amended) at a concrete failing environment (the
persist-style call raising). -/
theorem transcription_failure_withholds_midi_witness :
    (offeredDownloads true
      (runPipeline
        { pasAvailable := true, pAvailable := false, importErrorSet := false,
          pasParams := [], pasRaises := true, pasMidiEffect := .halfWritten,
          pasNotesEffect := .absent, pRaises := false, pShape := .tupleAtLeast3,
          midiWriteRaises := false, midiWriteEffect := .absent, noteEvents := [] }
        { convertRaises := false, convertEffect := .absent })).midiOffered = false ∧
    (offeredDownloads true
      (runPipeline
        { pasAvailable := true, pAvailable := false, importErrorSet := false,
          pasParams := [], pasRaises := true, pasMidiEffect := .halfWritten,
          pasNotesEffect := .absent, pRaises := false, pShape := .tupleAtLeast3,
          midiWriteRaises := false, midiWriteEffect := .absent, noteEvents := [] }
        { convertRaises := false, convertEffect := .absent })).notesOffered =
      fileExists
        (runPipeline
          { pasAvailable := true, pAvailable := false, importErrorSet := false,
            pasParams := [], pasRaises := true, pasMidiEffect := .halfWritten,
            pasNotesEffect := .absent, pRaises := false, pShape := .tupleAtLeast3,
            midiWriteRaises := false, midiWriteEffect := .absent, noteEvents := [] }
          { convertRaises := false, convertEffect := .absent }).trans.notes :=
  transcription_failure_withholds_midi _ _ true rfl

/-- C2 counterexample: with `predict_and_save` available under
parameter names matching neither known convention, the script does NOT
fail fast: it takes the fallback branch of lines 131-134 and invokes
the entry point with four positional arguments anyway. -/
theorem unrecognized_signature_called_cex :
    (let o := runTranscription
      { pasAvailable := true, pAvailable := true, importErrorSet := false,
        pasParams := ["audio_path_list", "output_directory"], pasRaises := false,
        pasMidiEffect := .fullyWritten, pasNotesEffect := .absent,
        pRaises := false, pShape := .tupleAtLeast3,
        midiWriteRaises := false, midiWriteEffect := .absent, noteEvents := [] }
     o.dispatch = Dispatch.pasFallback ∧ o.callAttempted = true) :=
  ⟨rfl, rfl⟩

/-- C2 (amended): when the available `predict_and_save` entry point's
parameter names match neither known convention, the adapter does not
fail fast — it always falls through to the fallback branch and still
attempts the call with four positional arguments ("hope for the best",
line 132); no UnsupportedBackendError exists in the code. -/
theorem unrecognized_signature_falls_back (env : BackendEnv)
    (hpas : env.pasAvailable = true)
    (hold : oldConvention env.pasParams = false)
    (hnew : newConvention env.pasParams = false) :
    (runTranscription env).dispatch = Dispatch.pasFallback ∧
    (runTranscription env).callAttempted = true := by
  unfold runTranscription pasDispatch
  rw [hpas, hold, hnew]
  repeat' split
  all_goals first | exact ⟨rfl, rfl⟩ | simp_all

/-- Witness for C2 (amended) at a concrete unrecognized signature. -/
theorem unrecognized_signature_falls_back_witness :
    (runTranscription
      { pasAvailable := true, pAvailable := false, importErrorSet := false,
        pasParams := ["foo"], pasRaises := false, pasMidiEffect := .absent,
        pasNotesEffect := .absent, pRaises := false, pShape := .tupleAtLeast3,
        midiWriteRaises := false, midiWriteEffect := .absent,
        noteEvents := [] }).dispatch = Dispatch.pasFallback ∧
    (runTranscription
      { pasAvailable := true, pAvailable := false, importErrorSet := false,
        pasParams := ["foo"], pasRaises := false, pasMidiEffect := .absent,
        pasNotesEffect := .absent, pRaises := false, pShape := .tupleAtLeast3,
        midiWriteRaises := false, midiWriteEffect := .absent,
        noteEvents := [] }).callAttempted = true :=
  unrecognized_signature_falls_back _ rfl rfl rfl

/-- C3 counterexample: when BOTH entry points are available, the one
invoked is `predict_and_save` (line 117: "Prefer predict_and_save if
available"), not the in-memory `predict` — the claimed preference order
is reversed in the code. -/
theorem predict_preference_cex :
    (let env : BackendEnv :=
      { pasAvailable := true, pAvailable := true, importErrorSet := false,
        pasParams := ["save_midi", "save_notes", "model_or_model_path"],
        pasRaises := false, pasMidiEffect := .fullyWritten,
        pasNotesEffect := .fullyWritten, pRaises := false,
        pShape := .tupleAtLeast3, midiWriteRaises := false,
        midiWriteEffect := .absent, noteEvents := [] }
     env.pasAvailable = true ∧ env.pAvailable = true ∧
     (runTranscription env).dispatch = Dispatch.pasOld ∧
     (runTranscription env).dispatch ≠ Dispatch.inMemory) :=
  ⟨rfl, rfl, rfl, by decide⟩

/-- C3 (amended): the fixed preference order is the opposite of the
claimed one: whenever `predict_and_save` is available it is the entry
point invoked (one of its three signature branches), and the in-memory
`predict` is invoked only when `predict_and_save` is unavailable. -/
theorem dispatch_prefers_predict_and_save (env : BackendEnv) :
    (env.pasAvailable = true →
      (runTranscription env).dispatch = pasDispatch env.pasParams ∧
      (runTranscription env).dispatch ≠ Dispatch.inMemory) ∧
    (env.pasAvailable = false → env.pAvailable = true →
      (runTranscription env).dispatch = Dispatch.inMemory) := by
  constructor
  · intro hpas
    unfold runTranscription
    rw [hpas]
    refine ⟨?_, ?_⟩
    · repeat' split
      all_goals first | rfl | simp_all
    · repeat' split
      all_goals first
        | exact pasDispatch_ne_inMemory env.pasParams
        | simp_all
  · intro hpas hp
    unfold runTranscription
    rw [hpas, hp]
    repeat' split
    all_goals first | rfl | simp_all

/-- Witness for C3 (amended) at a concrete environment where both
entry points are available. -/
theorem dispatch_prefers_predict_and_save_witness :
    (runTranscription
      { pasAvailable := true, pAvailable := true, importErrorSet := false,
        pasParams := ["x"], pasRaises := false, pasMidiEffect := .fullyWritten,
        pasNotesEffect := .fullyWritten, pRaises := false,
        pShape := .tupleAtLeast3, midiWriteRaises := false,
        midiWriteEffect := .absent, noteEvents := [] }).dispatch =
      pasDispatch ["x"] ∧
    (runTranscription
      { pasAvailable := true, pAvailable := true, importErrorSet := false,
        pasParams := ["x"], pasRaises := false, pasMidiEffect := .fullyWritten,
        pasNotesEffect := .fullyWritten, pRaises := false,
        pShape := .tupleAtLeast3, midiWriteRaises := false,
        midiWriteEffect := .absent, noteEvents := [] }).dispatch ≠
      Dispatch.inMemory :=
  (dispatch_prefers_predict_and_save _).1 rfl

/-- C4: every URL-based acquisition that succeeds yields an asset whose
duration is at most 30 seconds — the pydub slice `audio[:30 * 1000]` of
line 88 bounds the trimmed export by 30000 ms. -/
theorem url_acquisition_duration_bound (env : UrlEnv) (a : AudioMeta)
    (h : (urlStage env).asset = some a) : a.durationMs ≤ 30 * 1000 := by
  unfold urlStage at h
  repeat' split at h
  all_goals first
    | exact Option.noConfusion h
    | (rw [← Option.some.inj h]; exact Nat.min_le_right _ _)

/-- Witness for C4: a 100-second download is trimmed to exactly
30000 ms. -/
theorem url_acquisition_duration_bound_witness :
    ({ fmt := "wav", sampleRate := 44100, channels := 2,
       durationMs := 30000 } : AudioMeta).durationMs ≤ 30 * 1000 :=
  url_acquisition_duration_bound
    { urlNonempty := true, buttonClicked := true, extractOk := true,
      rawExists := true, decodeOk := true, exportOk := true,
      rawMeta := { fmt := "mp3", sampleRate := 44100, channels := 2,
                   durationMs := 100000 } }
    _ rfl

/-- C5: a MusicXML conversion failure does not roll back the
transcription: when transcription succeeded (no error, `midi_out` set,
MIDI file on disk) and the conversion of lines 163-171 raises, the MIDI
and note-events file states are unchanged, the MIDI download is still
offered, the note-events download is offered exactly when its file
exists, and only the MusicXML download is withheld. -/
theorem xml_failure_preserves_transcription (env : BackendEnv) (cenv : ConvertEnv)
    (audioFileExists : Bool)
    (hok : (runTranscription env).transcriptionError = false)
    (hvar : (runTranscription env).midiOutVar = true)
    (hmidi : fileExists (runTranscription env).midi = true)
    (hraise : cenv.convertRaises = true) :
    (runPipeline env cenv).trans.midi = (runTranscription env).midi ∧
    (runPipeline env cenv).trans.notes = (runTranscription env).notes ∧
    (runPipeline env cenv).trans.transcriptionError = false ∧
    (offeredDownloads audioFileExists (runPipeline env cenv)).midiOffered = true ∧
    (offeredDownloads audioFileExists (runPipeline env cenv)).musicxmlOffered
      = false ∧
    (offeredDownloads audioFileExists (runPipeline env cenv)).notesOffered =
      fileExists (runTranscription env).notes := by
  have hcond : (env.importErrorSet && !env.pasAvailable && !env.pAvailable)
      = false := by
    by_contra hc
    rw [Bool.not_eq_false] at hc
    have hc2 : (env.importErrorSet = true ∧ env.pasAvailable = false) ∧
        env.pAvailable = false := by
      simpa using hc
    obtain ⟨⟨-, h2⟩, h3⟩ := hc2
    have hcontra : (runTranscription env).transcriptionError = true := by
      unfold runTranscription
      rw [h2, h3]
      rfl
    rw [hok] at hcontra
    exact Bool.noConfusion hcontra
  unfold runPipeline offeredDownloads
  rw [hcond]
  simp [hvar, hmidi, hraise, hok]

/-- Witness for C5 at a concrete succeeding transcription followed by a
raising conversion. -/
theorem xml_failure_preserves_transcription_witness :
    (let env : BackendEnv :=
      { pasAvailable := false, pAvailable := true, importErrorSet := false,
        pasParams := [], pasRaises := false, pasMidiEffect := .absent,
        pasNotesEffect := .absent, pRaises := false, pShape := .tupleAtLeast3,
        midiWriteRaises := false, midiWriteEffect := .absent,
        noteEvents := [{ pitch := .num 60, onset := .num 0,
                         offTime := .num 10, confidence := .num 1 }] }
     let cenv : ConvertEnv := { convertRaises := true, convertEffect := .absent }
     (runPipeline env cenv).trans.midi = (runTranscription env).midi ∧
     (runPipeline env cenv).trans.notes = (runTranscription env).notes ∧
     (runPipeline env cenv).trans.transcriptionError = false ∧
     (offeredDownloads true (runPipeline env cenv)).midiOffered = true ∧
     (offeredDownloads true (runPipeline env cenv)).musicxmlOffered = false ∧
     (offeredDownloads true (runPipeline env cenv)).notesOffered =
       fileExists (runTranscription env).notes) :=
  xml_failure_preserves_transcription _ _ true rfl rfl rfl rfl

/-- C6 counterexample: a ".txt" upload is silently filtered by the
widget's `type` allow-list: no AudioAsset is created AND no error
message of any kind is reported — there is no AcquisitionError, so
"ingestion fails with an AcquisitionError" is false. -/
theorem unsupported_upload_no_error_cex :
    uploadStage "voice_memo.txt".toList
      { fmt := "txt", sampleRate := 0, channels := 0, durationMs := 0 } true =
      { asset := none, errors := [] } := rfl

/-- C6 (amended): an upload whose name the widget filter rejects
produces no AudioAsset — but silently: the script shows no error
message for it, and no AcquisitionError (or any error type) exists in
the code. -/
theorem disallowed_extension_silently_rejected (name : List Char)
    (meta : AudioMeta) (chosen : Bool) (h : uploaderAccepts name = false) :
    uploadStage name meta chosen = { asset := none, errors := [] } := by
  unfold uploadStage
  rw [h, Bool.and_false]
  rfl

/-- Witness for C6 (amended) at the concrete rejected name. -/
theorem disallowed_extension_silently_rejected_witness :
    uploadStage "notes.txt".toList
      { fmt := "txt", sampleRate := 8000, channels := 1, durationMs := 1000 }
      true = { asset := none, errors := [] } :=
  disallowed_extension_silently_rejected _ _ _ (by decide)

theorem plain_dump_load (v : PyVal) (h : plainVal v = true) :
    (dumpVal v).map loadVal = some v := by
  cases v <;> simp_all [plainVal, dumpVal, loadVal]

theorem plain_event_dump_load (e : PyNoteEvent) (h : plainEvent e = true) :
    (dumpEvent e).map loadEvent = some e := by
  obtain ⟨p, o, f, c⟩ := e
  simp only [plainEvent, Bool.and_eq_true] at h
  obtain ⟨⟨⟨hp, ho⟩, hf⟩, hc⟩ := h
  obtain ⟨jp, hjp, hlp⟩ := Option.map_eq_some'.mp (plain_dump_load p hp)
  obtain ⟨jo, hjo, hlo⟩ := Option.map_eq_some'.mp (plain_dump_load o ho)
  obtain ⟨jf, hjf, hlf⟩ := Option.map_eq_some'.mp (plain_dump_load f hf)
  obtain ⟨jc, hjc, hlc⟩ := Option.map_eq_some'.mp (plain_dump_load c hc)
  unfold dumpEvent
  rw [show (⟨p, o, f, c⟩ : PyNoteEvent).pitch = p from rfl,
    show (⟨p, o, f, c⟩ : PyNoteEvent).onset = o from rfl,
    show (⟨p, o, f, c⟩ : PyNoteEvent).offTime = f from rfl,
    show (⟨p, o, f, c⟩ : PyNoteEvent).confidence = c from rfl,
    hjp, hjo, hjf, hjc]
  simp [loadEvent, hlp, hlo, hlf, hlc]

/-- C7 counterexample: a note event carrying one boxed numeric field is
NOT coerced to a plain value: `json.dump` (lines 150-151, which contain
no sanitization step) fails on it, the transcription stage errors out,
and no serialized sequence is produced at all — so the claimed
coercion-then-lossless-roundtrip fails for this transcription-produced
sequence. -/
theorem boxed_note_event_not_coerced_cex :
    dumpNoteEvents [{ pitch := .boxedNum 60, onset := .num 0,
                      offTime := .num 10, confidence := .num 1 }] = none ∧
    (runTranscription
      { pasAvailable := false, pAvailable := true, importErrorSet := false,
        pasParams := [], pasRaises := false, pasMidiEffect := .absent,
        pasNotesEffect := .absent, pRaises := false, pShape := .exactly3,
        midiWriteRaises := false, midiWriteEffect := .absent,
        noteEvents := [{ pitch := .boxedNum 60, onset := .num 0,
                         offTime := .num 10,
                         confidence := .num 1 }] }).transcriptionError = true :=
  ⟨rfl, rfl⟩

/-- C7 (amended): the code performs no coercion of boxed numeric
fields; instead `json.dump` succeeds exactly on sequences whose fields
are already plain scalars, and on those the serialization round-trips
exactly (decode after encode is the identity). -/
theorem plain_note_events_roundtrip (evs : List PyNoteEvent)
    (h : evs.all plainEvent = true) :
    (dumpNoteEvents evs).map (fun js => js.map loadEvent) = some evs := by
  induction evs with
  | nil => rfl
  | cons e rest ih =>
    simp only [List.all_cons, Bool.and_eq_true] at h
    obtain ⟨he, hrest⟩ := h
    obtain ⟨j, hj, hl⟩ := Option.map_eq_some'.mp (plain_event_dump_load e he)
    obtain ⟨js, hjs, hls⟩ := Option.map_eq_some'.mp (ih hrest)
    unfold dumpNoteEvents
    rw [hj, hjs]
    simp [hl, hls]

/-- Witness for C7 (amended) at a concrete all-plain sequence. -/
theorem plain_note_events_roundtrip_witness :
    (dumpNoteEvents [{ pitch := .num 60, onset := .num 0, offTime := .num 10,
                       confidence := .num 1 }]).map (fun js => js.map loadEvent) =
      some [{ pitch := .num 60, onset := .num 0, offTime := .num 10,
              confidence := .num 1 }] :=
  plain_note_events_roundtrip _ rfl

/-- C8 counterexample: an uploaded 44.1 kHz stereo mp3 is stored
verbatim (lines 58-59 write the raw bytes): the asset handed to later
stages is still an mp3 at 44100 Hz with 2 channels — not a canonical
uncompressed waveform at a configured rate such as 22050 Hz.  No
normalization stage exists in the code. -/
theorem upload_not_normalized_cex :
    (uploadStage "song.mp3".toList
      { fmt := "mp3", sampleRate := 44100, channels := 2, durationMs := 60000 }
      true).asset =
      some { fmt := "mp3", sampleRate := 44100, channels := 2,
             durationMs := 60000 } ∧
    (44100 : Nat) ≠ 22050 ∧ ("mp3" : String) ≠ "wav" :=
  ⟨rfl, by decide, by decide⟩

/-- C8 (amended): ingestion performs no sample-rate or channel
normalization: an accepted upload's stored asset keeps format, sample
rate, channels and duration verbatim; the URL path re-encodes to a WAV
container but keeps the downloaded stream's sample rate and channel
count unchanged. -/
theorem ingestion_preserves_source_meta (name : List Char) (meta : AudioMeta)
    (chosen : Bool) (env : UrlEnv) (a b : AudioMeta)
    (hu : (uploadStage name meta chosen).asset = some a)
    (hy : (urlStage env).asset = some b) :
    a = meta ∧ b.fmt = "wav" ∧ b.sampleRate = env.rawMeta.sampleRate ∧
      b.channels = env.rawMeta.channels := by
  constructor
  · unfold uploadStage at hu
    split at hu
    · exact (Option.some.inj hu).symm
    · exact Option.noConfusion hu
  · unfold urlStage at hy
    repeat' split at hy
    all_goals first
      | exact Option.noConfusion hy
      | (rw [← Option.some.inj hy]; exact ⟨rfl, rfl, rfl⟩)

/-- Witness for C8 (amended) at a concrete upload and download. -/
theorem ingestion_preserves_source_meta_witness :
    ({ fmt := "flac", sampleRate := 48000, channels := 2,
       durationMs := 5000 } : AudioMeta) =
      { fmt := "flac", sampleRate := 48000, channels := 2, durationMs := 5000 } ∧
    ({ fmt := "wav", sampleRate := 44100, channels := 2,
       durationMs := 30000 } : AudioMeta).fmt = "wav" ∧
    ({ fmt := "wav", sampleRate := 44100, channels := 2,
       durationMs := 30000 } : AudioMeta).sampleRate =
      ({ urlNonempty := true, buttonClicked := true, extractOk := true,
         rawExists := true, decodeOk := true, exportOk := true,
         rawMeta := { fmt := "mp3", sampleRate := 44100, channels := 2,
                      durationMs := 100000 } } : UrlEnv).rawMeta.sampleRate ∧
    ({ fmt := "wav", sampleRate := 44100, channels := 2,
       durationMs := 30000 } : AudioMeta).channels =
      ({ urlNonempty := true, buttonClicked := true, extractOk := true,
         rawExists := true, decodeOk := true, exportOk := true,
         rawMeta := { fmt := "mp3", sampleRate := 44100, channels := 2,
                      durationMs := 100000 } } : UrlEnv).rawMeta.channels :=
  ingestion_preserves_source_meta "song.flac".toList
    { fmt := "flac", sampleRate := 48000, channels := 2, durationMs := 5000 }
    true
    { urlNonempty := true, buttonClicked := true, extractOk := true,
      rawExists := true, decodeOk := true, exportOk := true,
      rawMeta := { fmt := "mp3", sampleRate := 44100, channels := 2,
                   durationMs := 100000 } }
    _ _ rfl rfl

/-- C9 counterexample: a half-written note-events file left behind by a
failed transcription stage (the `open` of line 150 creates the file
before `json.dump` raises) IS offered for download: the guard of
line 200 checks only `note_events_json.exists()` — so "a partially
written file from a failed stage is never served" is false. -/
theorem half_written_notes_offered_cex :
    (let p := runPipeline
      { pasAvailable := false, pAvailable := true, importErrorSet := false,
        pasParams := [], pasRaises := false, pasMidiEffect := .absent,
        pasNotesEffect := .absent, pRaises := false, pShape := .exactly3,
        midiWriteRaises := false, midiWriteEffect := .absent,
        noteEvents := [{ pitch := .num 60, onset := .boxedNum 0,
                         offTime := .num 10, confidence := .num 1 }] }
      { convertRaises := false, convertEffect := .absent }
     p.trans.transcriptionError = true ∧
     p.trans.notes = FileState.halfWritten ∧
     (offeredDownloads true p).notesOffered = true) :=
  ⟨rfl, rfl, rfl⟩

/-- C9 (amended): the MIDI download is offered only when the
transcription stage did not fail, and the MusicXML download only when
the conversion step completed (its file fully written); the note-events
download has no stage guard at all — it is offered exactly when its
file exists, even half-written from a failed stage. -/
theorem stage_guarded_downloads (env : BackendEnv) (cenv : ConvertEnv)
    (audioFileExists : Bool) :
    ((offeredDownloads audioFileExists (runPipeline env cenv)).midiOffered = true →
      (runPipeline env cenv).trans.transcriptionError = false) ∧
    ((offeredDownloads audioFileExists (runPipeline env cenv)).musicxmlOffered
        = true →
      (runPipeline env cenv).convertError = false ∧
      (runPipeline env cenv).musicxml = FileState.fullyWritten) ∧
    ((offeredDownloads audioFileExists (runPipeline env cenv)).notesOffered =
      fileExists (runPipeline env cenv).trans.notes) := by
  refine ⟨?_, ?_, rfl⟩
  · intro hoff
    by_contra hne
    rw [Bool.not_eq_false] at hne
    have hv := pipeline_trans_error_midiOutVar env cenv hne
    unfold offeredDownloads at hoff
    rw [hv] at hoff
    exact Bool.noConfusion hoff
  · simp only [runPipeline, offeredDownloads]
    repeat' split
    all_goals intro hx
    all_goals first
      | exact ⟨rfl, rfl⟩
      | exact Bool.noConfusion hx

/-- Witness for C9 (amended): at a concrete succeeding run, the offered
MIDI download implies the stage reported no error. -/
theorem stage_guarded_downloads_witness :
    (runPipeline
      { pasAvailable := false, pAvailable := true, importErrorSet := false,
        pasParams := [], pasRaises := false, pasMidiEffect := .absent,
        pasNotesEffect := .absent, pRaises := false, pShape := .tupleAtLeast3,
        midiWriteRaises := false, midiWriteEffect := .absent,
        noteEvents := [{ pitch := .num 60, onset := .num 0, offTime := .num 10,
                         confidence := .num 1 }] }
      { convertRaises := false,
        convertEffect := .absent }).trans.transcriptionError = false :=
  (stage_guarded_downloads _ _ true).1 rfl
